import Mathlib

set_option maxRecDepth 100000

/-!
Verification model of the `x_free_scraper` package (files `io_utils.py`,
`__main__.py`, `client.py`).

Shallow-embedding conventions:
* The persisted JSON state file is a `Disk := Option QuotaState` value
  (`none` = the file does not exist); `write_state` becomes returning the
  new `Disk` value, threaded explicitly through the orchestrator.
* Timestamps are epoch seconds (`Int`); the current instant of an
  invocation is a `now : Int` parameter, the current UTC month a
  `cur : String` parameter, and `now_utc_iso()` for row provenance a
  `fetched_at : String` parameter.  `seconds_since` then returns `now - t`,
  matching the integer number of seconds the Python code computes.
* The network client is an `Except String` parameter: `.error` models an
  `XClientError` raised by the call, `.ok` a decoded 200-response.
* JSON dictionaries from the API are records of `Option` fields (`none` =
  key absent or JSON null), parsed permissively exactly as the `.get`
  calls in the source do.
-/

namespace XFreeScraper

/-! ### SHA-256 (Python `hashlib.sha256(...).hexdigest()`)
Words are `Nat`s reduced mod 2^32. -/

def w32 (x : Nat) : Nat := x % 4294967296

def rotr32 (x n : Nat) : Nat := w32 ((x >>> n) ||| (x <<< (32 - n)))

def shaCh (e f g : Nat) : Nat := (e &&& f) ^^^ ((e ^^^ 4294967295) &&& g)

def shaMaj (a b c : Nat) : Nat := (a &&& b) ^^^ (a &&& c) ^^^ (b &&& c)

def bigSigma0 (x : Nat) : Nat := rotr32 x 2 ^^^ rotr32 x 13 ^^^ rotr32 x 22

def bigSigma1 (x : Nat) : Nat := rotr32 x 6 ^^^ rotr32 x 11 ^^^ rotr32 x 25

def smallSigma0 (x : Nat) : Nat := rotr32 x 7 ^^^ rotr32 x 18 ^^^ (x >>> 3)

def smallSigma1 (x : Nat) : Nat := rotr32 x 17 ^^^ rotr32 x 19 ^^^ (x >>> 10)

def shaK : List Nat :=
  [1116352408, 1899447441, 3049323471, 3921009573, 961987163,
   1508970993, 2453635748, 2870763221, 3624381080, 310598401,
   607225278, 1426881987, 1925078388, 2162078206, 2614888103,
   3248222580, 3835390401, 4022224774, 264347078, 604807628,
   770255983, 1249150122, 1555081692, 1996064986, 2554220882,
   2821834349, 2952996808, 3210313671, 3336571891, 3584528711,
   113926993, 338241895, 666307205, 773529912, 1294757372,
   1396182291, 1695183700, 1986661051, 2177026350, 2456956037,
   2730485921, 2820302411, 3259730800, 3345764771, 3516065817,
   3600352804, 4094571909, 275423344, 430227734, 506948616,
   659060556, 883997877, 958139571, 1322822218, 1537002063,
   1747873779, 1955562222, 2024104815, 2227730452, 2361852424,
   2428436474, 2756734187, 3204031479, 3329325298]

def shaH0 : List Nat :=
  [1779033703, 3144134277, 1013904242, 2773480762,
   1359893119, 2600822924, 528734635, 1541459225]

/-- UTF-8 encoding of one character, as byte values. -/
def utf8EncodeCharNat (c : Char) : List Nat :=
  let n := c.toNat
  if n < 128 then [n]
  else if n < 2048 then [192 + n / 64, 128 + n % 64]
  else if n < 65536 then [224 + n / 4096, 128 + (n / 64) % 64, 128 + n % 64]
  else [240 + n / 262144, 128 + (n / 4096) % 64, 128 + (n / 64) % 64, 128 + n % 64]

/-- UTF-8 bytes of a string (Python `s.encode("utf-8")`). -/
def strBytes (s : String) : List Nat := (s.data.map utf8EncodeCharNat).flatten

/-- `k` bytes of `v`, big-endian. -/
def beBytes : Nat → Nat → List Nat
  | 0, _ => []
  | k + 1, v => beBytes k (v / 256) ++ [v % 256]

/-- SHA-256 padding: `0x80`, zeros, then the 64-bit big-endian bit length. -/
def shaPad (msg : List Nat) : List Nat :=
  let l := msg.length
  let zeros := (64 - ((l + 9) % 64)) % 64
  msg ++ [128] ++ List.replicate zeros 0 ++ beBytes 8 (8 * l)

def bytesToWords : List Nat → List Nat
  | a :: b :: c :: d :: rest => (((a * 256 + b) * 256 + c) * 256 + d) :: bytesToWords rest
  | _ => []

def chunk16 : Nat → List Nat → List (List Nat)
  | 0, _ => []
  | k + 1, ws => ws.take 16 :: chunk16 k (ws.drop 16)

def schedStep (acc : List Nat) : Nat :=
  let n := acc.length
  let g (i : Nat) : Nat := acc.getD (n - i) 0
  w32 (smallSigma1 (g 2) + g 7 + smallSigma0 (g 15) + g 16)

def extendSched (acc : List Nat) : Nat → List Nat
  | 0 => acc
  | k + 1 => extendSched (acc ++ [schedStep acc]) k

def shaRound (vs : List Nat) (kw : Nat × Nat) : List Nat :=
  match vs with
  | [a, b, c, d, e, f, g, h] =>
    let t1 := w32 (h + bigSigma1 e + shaCh e f g + kw.1 + kw.2)
    let t2 := w32 (bigSigma0 a + shaMaj a b c)
    [w32 (t1 + t2), a, b, c, w32 (d + t1), e, f, g]
  | _ => vs

def processBlock (hs : List Nat) (block : List Nat) : List Nat :=
  let sched := extendSched (block.take 16) 48
  let vs := (shaK.zip sched).foldl shaRound hs
  (hs.zip vs).map (fun p => w32 (p.1 + p.2))

def hexDigit (n : Nat) : Char := if n < 10 then Char.ofNat (48 + n) else Char.ofNat (87 + n)

def wordToHex (w : Nat) : String :=
  String.mk ((List.range 8).map (fun i => hexDigit ((w >>> (28 - 4 * i)) &&& 15)))

/-- Hex digest of the SHA-256 hash of a byte sequence. -/
def sha256hex (msg : List Nat) : String :=
  let words := bytesToWords (shaPad msg)
  let blocks := chunk16 (words.length / 16) words
  String.join ((blocks.foldl processBlock shaH0).map wordToHex)

/-- `sha_id` (io_utils.py): `hashlib.sha256((s + salt).encode("utf-8")).hexdigest()`. -/
def sha_id (s salt : String) : String := sha256hex (strBytes (s ++ salt))

/-! ### State store (io_utils.py) -/

/-- `FIFTEEN_MIN = 15 * 60`. -/
def FIFTEEN_MIN : Int := 15 * 60

/-- The persisted quota state (`state.json`). -/
structure QuotaState where
  month : String
  monthly_count : Int
  last_counts_ts : Option Int
  last_search_ts : Option Int
deriving Repr, DecidableEq

/-- The state file on disk; `none` means the file does not exist. -/
abbrev Disk := Option QuotaState

/-- `_default_state()`. -/
def defaultState (curMonth : String) : QuotaState :=
  { month := curMonth, monthly_count := 0, last_counts_ts := none, last_search_ts := none }

/-- `read_state()`: create the file with the default state if missing, then
reconcile the stored month with the current UTC month (zeroing
`monthly_count` and writing back on mismatch).  Returns the state handed to
the caller and the resulting disk contents. -/
def read_state (disk : Disk) (curMonth : String) : QuotaState × Disk :=
  let disk1 : Disk :=
    match disk with
    | none => some (defaultState curMonth)
    | some st => some st
  let st := disk1.getD (defaultState curMonth)
  if st.month ≠ curMonth then
    let st2 := { st with month := curMonth, monthly_count := 0 }
    (st2, some st2)
  else
    (st, disk1)

/-- `seconds_since`: `None` (falsy) timestamps map to `10**9`. -/
def seconds_since (ts : Option Int) (now : Int) : Int :=
  match ts with
  | none => 1000000000
  | some t => now - t

/-- `guard_counts_rate()`. -/
def guard_counts_rate (disk : Disk) (curMonth : String) (now : Int) :
    (Bool × String) × Disk :=
  let r := read_state disk curMonth
  let elapsed := seconds_since r.1.last_counts_ts now
  if elapsed < FIFTEEN_MIN then
    ((false, "counts rate limit: " ++ toString elapsed ++ "s since last, need ≥900s"), r.2)
  else
    ((true, "ok"), r.2)

/-- `guard_search_rate()`. -/
def guard_search_rate (disk : Disk) (curMonth : String) (now : Int) :
    (Bool × String) × Disk :=
  let r := read_state disk curMonth
  let elapsed := seconds_since r.1.last_search_ts now
  if elapsed < FIFTEEN_MIN then
    ((false, "search rate limit: " ++ toString elapsed ++ "s since last, need ≥900s"), r.2)
  else
    ((true, "ok"), r.2)

/-- `guard_monthly_quota(request_n)`. -/
def guard_monthly_quota (request_n : Int) (disk : Disk) (curMonth : String) :
    (Bool × String) × Disk :=
  let r := read_state disk curMonth
  let used := r.1.monthly_count
  if used + request_n > 100 then
    ((false, "quota would be exceeded: used=" ++ toString used ++ ", request="
        ++ toString request_n ++ ", limit=100"), r.2)
  else
    ((true, "ok"), r.2)

/-- `bump_monthly_count(n)`: read, add, write. -/
def bump_monthly_count (n : Int) (disk : Disk) (curMonth : String) : Disk :=
  let r := read_state disk curMonth
  some { r.1 with monthly_count := r.1.monthly_count + n }

/-- `mark_counts_called()`. -/
def mark_counts_called (disk : Disk) (curMonth : String) (now : Int) : Disk :=
  let r := read_state disk curMonth
  some { r.1 with last_counts_ts := some now }

/-- `mark_search_called()`. -/
def mark_search_called (disk : Disk) (curMonth : String) (now : Int) : Disk :=
  let r := read_state disk curMonth
  some { r.1 with last_search_ts := some now }

/-! ### Normalizer (io_utils.py) -/

/-- `user["public_metrics"]` as used by the normalizer. -/
structure UserMetrics where
  followers_count : Option Int
deriving Repr, DecidableEq

/-- A raw author record from `includes.users`. -/
structure XUser where
  id : String
  username : Option String
  name : Option String
  public_metrics : Option UserMetrics
deriving Repr, DecidableEq

/-- `tweet["public_metrics"]`. -/
structure PublicMetrics where
  retweet_count : Option Int
  reply_count : Option Int
  like_count : Option Int
  quote_count : Option Int
deriving Repr, DecidableEq

/-- A raw post record from the search response's `data`. -/
structure Tweet where
  id : Option String
  author_id : Option String
  created_at : Option String
  lang : Option String
  text : Option String
  public_metrics : Option PublicMetrics
  conversation_id : Option String
deriving Repr, DecidableEq

/-- A decoded search response: `data` and `includes.users` (`resp.get("data",
[]) or []` turns an absent or null list into `[]`, so both are plain lists). -/
structure SearchResponse where
  data : List Tweet
  users : List XUser
deriving Repr, DecidableEq

/-- The dict `{user["id"]: user for user in includes.users}` followed by
`.get(author_id)`: on duplicate ids the later entry wins. -/
def usersIndex (us : List XUser) (aid : String) : Option XUser :=
  us.foldl (fun acc u => if u.id = aid then some u else acc) none

/-- Python truthiness of an optional string (`None` and `""` are falsy). -/
def truthy : Option String → Bool
  | none => false
  | some s => s ≠ ""

/-- `x or 0` over an optional integer. -/
def pyOr0 (o : Option Int) : Int :=
  match o with
  | none => 0
  | some v => if v = 0 then 0 else v

/-- `str(x or "")` over an optional string. -/
def pyOrEmpty (o : Option String) : String :=
  match o with
  | none => ""
  | some s => s

/-- One normalized output row. -/
structure Row where
  tweet_url : Option String
  tweet_id : Option String
  posted_at_utc : Option String
  tweet_language : Option String
  tweet_text : Option String
  author_id : Option String
  author_username : Option String
  author_display_name : Option String
  author_followers : Option Int
  engagement_likes : Int
  engagement_retweets : Int
  engagement_replies : Int
  engagement_quotes : Int
  engagement_total : Int
  conversation_id : Option String
  query_key : String
  fetched_at_utc : String
deriving Repr, DecidableEq

/-- The body of the `for tweet in data` loop of `normalize_search_json`. -/
def normalizeTweet (users : List XUser) (query_key : String) (anonymize : Bool)
    (salt : String) (fetched_at : String) (tweet : Tweet) : Row :=
  let author_id := tweet.author_id
  let user : Option XUser :=
    match author_id with
    | none => none
    | some a => usersIndex users a
  let user_metrics : Option UserMetrics := user.bind (fun u => u.public_metrics)
  let tweet_id := tweet.id
  let username : Option String := user.bind (fun u => u.username)
  let display_name : Option String := user.bind (fun u => u.name)
  let retweets := pyOr0 ((tweet.public_metrics).bind (fun m => m.retweet_count))
  let replies := pyOr0 ((tweet.public_metrics).bind (fun m => m.reply_count))
  let likes := pyOr0 ((tweet.public_metrics).bind (fun m => m.like_count))
  let quotes := pyOr0 ((tweet.public_metrics).bind (fun m => m.quote_count))
  let engagement_total := retweets + replies + likes + quotes
  let row : Row :=
    { tweet_url :=
        if truthy username && truthy tweet_id then
          some ("https://x.com/" ++ pyOrEmpty username ++ "/status/" ++ pyOrEmpty tweet_id)
        else if truthy tweet_id then
          some ("https://x.com/i/web/status/" ++ pyOrEmpty tweet_id)
        else none
      tweet_id := tweet_id
      posted_at_utc := tweet.created_at
      tweet_language := tweet.lang
      tweet_text := tweet.text
      author_id := author_id
      author_username := username
      author_display_name := display_name
      author_followers := user_metrics.bind (fun m => m.followers_count)
      engagement_likes := likes
      engagement_retweets := retweets
      engagement_replies := replies
      engagement_quotes := quotes
      engagement_total := engagement_total
      conversation_id := tweet.conversation_id
      query_key := query_key
      fetched_at_utc := fetched_at }
  if anonymize then
    { row with
        author_id := some (sha_id (pyOrEmpty author_id) salt)
        author_username := none
        author_display_name := none
        tweet_url :=
          if truthy tweet_id then
            some ("https://x.com/i/web/status/" ++ pyOrEmpty tweet_id)
          else row.tweet_url }
  else row

/-- `normalize_search_json`: one row per post in `data`. -/
def normalize_search_json (resp : SearchResponse) (query_key : String)
    (anonymize : Bool) (salt : String) (fetched_at : String) : List Row :=
  resp.data.map (normalizeTweet resp.users query_key anonymize salt fetched_at)

/-! ### Clean-CSV writer (io_utils.py)
`write_clean_csv` accepts any list of dict-shaped rows, so rows are modelled
as association lists from column name to an optional cell value (`none` =
missing key or null value, which pandas both render as NaN). -/

abbrev CsvRow := List (String × Option String)

/-- The cell of a row in a column (missing key and stored `None` both NaN). -/
def rowCell (row : CsvRow) (col : String) : Option String :=
  match row.lookup col with
  | none => none
  | some v => v

/-- `pd.DataFrame(rows).columns`: keys in order of first appearance. -/
def dfColumns (rows : List CsvRow) : List String :=
  rows.foldl
    (fun acc row =>
      row.foldl (fun acc2 kv => if acc2.contains kv.1 then acc2 else acc2 ++ [kv.1]) acc)
    []

/-- Lexicographic (code-point) order on character lists: how Python (and so
pandas) compares the ISO-8601 timestamp strings being sorted. -/
def strLeb : List Char → List Char → Bool
  | [], _ => true
  | _ :: _, [] => false
  | a :: as, b :: bs =>
    if a.toNat < b.toNat then true
    else if b.toNat < a.toNat then false
    else strLeb as bs

/-- The order `sort_values(by="posted_at_utc", ascending=False,
na_position="last")` sorts by: present timestamps descending, missing last. -/
def dateLe (a b : Option String) : Bool :=
  match a, b with
  | some x, some y => strLeb y.data x.data
  | some _, none => true
  | none, some _ => false
  | none, none => true

def preferred_order : List String :=
  ["tweet_url", "tweet_id", "posted_at_utc", "tweet_language", "tweet_text",
   "author_username", "author_display_name", "author_id", "author_followers",
   "engagement_likes", "engagement_retweets", "engagement_replies",
   "engagement_quotes", "engagement_total", "conversation_id", "query_key",
   "fetched_at_utc"]

/-- `write_clean_csv`, as the row order and column order of the emitted CSV. -/
def write_clean_csv (rows : List CsvRow) : List CsvRow × List String :=
  let cols := dfColumns rows
  let sortedRows :=
    if rows.isEmpty then rows
    else if cols.contains "posted_at_utc" then
      rows.mergeSort (fun r1 r2 => dateLe (rowCell r1 "posted_at_utc") (rowCell r2 "posted_at_utc"))
    else rows
  let available_columns := preferred_order.filter (fun c => cols.contains c)
  let remaining_columns := cols.filter (fun c => ¬ available_columns.contains c)
  (sortedRows, available_columns ++ remaining_columns)

/-! ### Command layer (`__main__.py`) -/

/-- Outcome of a command: a `return code` or an uncaught `SystemExit`. -/
inductive CmdResult where
  | exit (code : Nat)
  | sysExit (msg : String)
deriving Repr, DecidableEq

/-- `s.split()`: split on whitespace runs, dropping empty tokens.  The
accumulator holds the current token's characters in reverse. -/
def splitWsAux : List Char → List Char → List String
  | [], acc => if acc.isEmpty then [] else [String.mk acc.reverse]
  | c :: cs, acc =>
    if c.isWhitespace then
      if acc.isEmpty then splitWsAux cs [] else String.mk acc.reverse :: splitWsAux cs []
    else splitWsAux cs (c :: acc)

def pySplitWs (s : String) : List String := splitWsAux s.data []

/-- `" ".join(s.split())`: collapse whitespace runs. -/
def collapse_ws (s : String) : String :=
  String.intercalate " " (pySplitWs s)

/-- `read_query`: resolve the key in queries.yaml, collapse whitespace, and
reject queries longer than 512 characters (both failures raise `SystemExit`). -/
def read_query (queries : List (String × String)) (query_key : String) :
    Except String String :=
  match queries.lookup query_key with
  | none => .error ("query-key '" ++ query_key ++ "' not found in queries.yaml")
  | some raw =>
    let q := collapse_ws raw
    if q.length > 512 then
      .error ("query too long (" ++ toString q.length ++ " chars). Free plan allows ≤512.")
    else
      .ok q

/-- One bucket of a counts response. -/
structure CountsBucket where
  tweet_count : Option Int
deriving Repr, DecidableEq

/-- A decoded counts response. -/
structure CountsResponse where
  data : List CountsBucket
deriving Repr, DecidableEq

structure ScoutArgs where
  query_key : String
  granularity : String
deriving Repr, DecidableEq

structure FetchArgs where
  query_key : String
  max_results : Int
  anonymize : Bool
deriving Repr, DecidableEq

/-- `cmd_scout`: counts-rate guard → query resolution → remote call →
`mark_counts_called` → persist raw payload (file writes are not modelled). -/
def cmd_scout (queries : List (String × String)) (args : ScoutArgs)
    (remote : Except String CountsResponse) (disk : Disk) (cur : String)
    (now : Int) : CmdResult × Disk :=
  let g1 := guard_counts_rate disk cur now
  if ¬ g1.1.1 then (.exit 2, g1.2)
  else
    match read_query queries args.query_key with
    | .error m => (.sysExit m, g1.2)
    | .ok _query =>
      match remote with
      | .error _ => (.exit 4, g1.2)
      | .ok _resp =>
        let disk2 := mark_counts_called g1.2 cur now
        (.exit 0, disk2)

/-- `cmd_fetch`: clamp → monthly-quota guard → search-rate guard → query
resolution → remote call → `mark_search_called` → normalize →
`bump_monthly_count(len(rows))` (raw/CSV file writes are not modelled). -/
def cmd_fetch (queries : List (String × String)) (args : FetchArgs)
    (remote : Except String SearchResponse) (disk : Disk) (cur : String)
    (now : Int) (fetched_at : String) (salt : String) : CmdResult × Disk :=
  let expected := max 10 (min args.max_results 100)
  let g1 := guard_monthly_quota expected disk cur
  if ¬ g1.1.1 then (.exit 3, g1.2)
  else
    let g2 := guard_search_rate g1.2 cur now
    if ¬ g2.1.1 then (.exit 2, g2.2)
    else
      match read_query queries args.query_key with
      | .error m => (.sysExit m, g2.2)
      | .ok _query =>
        match remote with
        | .error _ => (.exit 4, g2.2)
        | .ok resp =>
          let disk3 := mark_search_called g2.2 cur now
          let rows := normalize_search_json resp args.query_key args.anonymize salt fetched_at
          let disk4 := bump_monthly_count (rows.length : Int) disk3 cur
          (.exit 0, disk4)

/-! ### Concrete fixtures used by witnesses and counterexamples -/

def longQ : String := String.mk (List.replicate 513 'a')

def emptyTweet : Tweet :=
  { id := none, author_id := none, created_at := none, lang := none,
    text := none, public_metrics := none, conversation_id := none }

def tweetA : Tweet := { emptyTweet with id := some "t1", author_id := some "u1" }

def tweetEmptyId : Tweet := { emptyTweet with id := some "" }

def tweetMetrics : Tweet :=
  { emptyTweet with
      id := some "t9"
      public_metrics := some { retweet_count := none, reply_count := some 3,
                               like_count := some 2, quote_count := none } }

def resp8 : SearchResponse :=
  { data := List.replicate 8 { emptyTweet with id := some "t", created_at := some "2025-10-01" },
    users := [] }

def respC7 : SearchResponse := { data := [tweetA, tweetEmptyId], users := [] }

def userW : XUser := { id := "w", username := some "wu", name := some "wn", public_metrics := none }

def csvRowOld : CsvRow :=
  [("posted_at_utc", some "2025-10-01"), ("tweet_id", some "a"), ("extra_col", some "x")]

def csvRowNew : CsvRow :=
  [("posted_at_utc", some "2025-10-02"), ("tweet_id", some "b"), ("extra_col", some "y")]

def csvRowNil : CsvRow := [("posted_at_utc", none), ("tweet_id", some "c")]

def csvEx : List CsvRow := [csvRowNil, csvRowNew, csvRowOld]

/-! ### Helper lemmas -/

theorem read_state_current (st : QuotaState) (cur : String) (hm : st.month = cur) :
    read_state (some st) cur = (st, some st) := by
  simp [read_state, hm]

theorem read_state_writes_result (disk : Disk) (cur : String) :
    (read_state disk cur).2 = some (read_state disk cur).1 := by
  cases disk with
  | none => simp [read_state, defaultState]
  | some st =>
    by_cases h : st.month = cur <;> simp [read_state, h]

theorem read_state_month_eq (disk : Disk) (cur : String) :
    (read_state disk cur).1.month = cur := by
  cases disk with
  | none => simp [read_state, defaultState]
  | some st =>
    by_cases h : st.month = cur <;> simp [read_state, h]

theorem read_state_preserves_ts (st : QuotaState) (cur : String) :
    (read_state (some st) cur).1.last_counts_ts = st.last_counts_ts ∧
      (read_state (some st) cur).1.last_search_ts = st.last_search_ts := by
  by_cases h : st.month = cur <;> simp [read_state, h]

/-- Full description of `cmd_fetch` in terms of the state the initial load
produced. -/
theorem cmd_fetch_spec (queries : List (String × String)) (k : String) (mr : Int)
    (an : Bool) (remote : Except String SearchResponse) (disk : Disk) (cur : String)
    (now : Int) (fetched salt : String) :
    cmd_fetch queries ⟨k, mr, an⟩ remote disk cur now fetched salt =
      (let st := (read_state disk cur).1
       if st.monthly_count + max 10 (min mr 100) > 100 then ((.exit 3 : CmdResult), some st)
       else if seconds_since st.last_search_ts now < 900 then (.exit 2, some st)
       else
         match read_query queries k with
         | .error m => (.sysExit m, some st)
         | .ok _ =>
           match remote with
           | .error _ => (.exit 4, some st)
           | .ok resp =>
             (.exit 0, some { st with
                last_search_ts := some now
                monthly_count := st.monthly_count + ((resp.data).length : Int) })) := by
  have h1 : read_state disk cur = ((read_state disk cur).1, some (read_state disk cur).1) := by
    rw [← read_state_writes_result]
  set st := (read_state disk cur).1 with hst
  have hm : st.month = cur := read_state_month_eq disk cur
  have h2 : read_state (some st) cur = (st, some st) := read_state_current st cur hm
  have h3 : read_state (some { st with last_search_ts := some now }) cur =
      ({ st with last_search_ts := some now },
        some { st with last_search_ts := some now }) :=
    read_state_current _ cur hm
  simp only [cmd_fetch, guard_monthly_quota, guard_search_rate, mark_search_called,
    bump_monthly_count, normalize_search_json, ← hst, h1, FIFTEEN_MIN]
  by_cases hq : st.monthly_count + max 10 (min mr 100) > 100
  · simp [hq]
  · by_cases hr : seconds_since st.last_search_ts now < 900
    · simp [hq, h2, hr]
    · cases read_query queries k with
      | error m => simp [hq, h2, hr]
      | ok q =>
        cases remote with
        | error e => simp [hq, h2, hr]
        | ok resp => simp [hq, h2, h3, hr, List.length_map]

/-- Full description of `cmd_scout` in terms of the state the initial load
produced. -/
theorem cmd_scout_spec (queries : List (String × String)) (k g : String)
    (remote : Except String CountsResponse) (disk : Disk) (cur : String) (now : Int) :
    cmd_scout queries ⟨k, g⟩ remote disk cur now =
      (let st := (read_state disk cur).1
       if seconds_since st.last_counts_ts now < 900 then ((.exit 2 : CmdResult), some st)
       else
         match read_query queries k with
         | .error m => (.sysExit m, some st)
         | .ok _ =>
           match remote with
           | .error _ => (.exit 4, some st)
           | .ok _ => (.exit 0, some { st with last_counts_ts := some now })) := by
  have h1 : read_state disk cur = ((read_state disk cur).1, some (read_state disk cur).1) := by
    rw [← read_state_writes_result]
  set st := (read_state disk cur).1 with hst
  have hm : st.month = cur := read_state_month_eq disk cur
  have h2 : read_state (some st) cur = (st, some st) := read_state_current st cur hm
  simp only [cmd_scout, guard_counts_rate, mark_counts_called, ← hst, h1, FIFTEEN_MIN]
  by_cases hr : seconds_since st.last_counts_ts now < 900
  · simp [hr]
  · cases read_query queries k with
    | error m => simp [h2, hr]
    | ok q =>
      cases remote with
      | error e => simp [h2, hr]
      | ok resp => simp [h2, hr]

/-! ### Claims -/

/-- C3: `read_state` reconciles the month on every load: a persisted state
whose month differs from the current UTC month is returned with
`monthly_count = 0` and `month` set to the current month, and that reset
state is written back to disk; a state whose month matches is returned
unchanged, with the disk untouched. -/
theorem C3_read_state_month_reconciliation (st : QuotaState) (cur : String) :
    (st.month ≠ cur →
      read_state (some st) cur =
        ({ st with month := cur, monthly_count := 0 },
          some { st with month := cur, monthly_count := 0 })) ∧
    (st.month = cur → read_state (some st) cur = (st, some st)) := by
  constructor
  · intro h
    simp [read_state, h]
  · intro h
    exact read_state_current st cur h

/-- Witness for C3: a stale September state loaded in October is reset and
persisted; an already-current state is returned as-is. -/
theorem C3_witness :
    read_state (some ⟨"2025-09", 7, some 5, some 6⟩) "2025-10" =
        (⟨"2025-10", 0, some 5, some 6⟩, some ⟨"2025-10", 0, some 5, some 6⟩) ∧
    read_state (some ⟨"2025-10", 7, some 5, some 6⟩) "2025-10" =
        (⟨"2025-10", 7, some 5, some 6⟩, some ⟨"2025-10", 7, some 5, some 6⟩) :=
  ⟨(C3_read_state_month_reconciliation ⟨"2025-09", 7, some 5, some 6⟩ "2025-10").1 (by decide),
    (C3_read_state_month_reconciliation ⟨"2025-10", 7, some 5, some 6⟩ "2025-10").2 rfl⟩

/-- C5: each rate guard allows when the stored timestamp is null, denies with
the elapsed seconds `e = now - t` reflected in the reason exactly when
`e < 900`, and allows when `e ≥ 900`. -/
theorem C5_rate_guard_thresholds (st : QuotaState) (cur : String) (now : Int) :
    ((st.last_counts_ts = none → (guard_counts_rate (some st) cur now).1 = (true, "ok")) ∧
      ∀ t, st.last_counts_ts = some t →
        (now - t < 900 →
          (guard_counts_rate (some st) cur now).1 =
            (false, "counts rate limit: " ++ toString (now - t) ++ "s since last, need ≥900s")) ∧
        (900 ≤ now - t → (guard_counts_rate (some st) cur now).1 = (true, "ok"))) ∧
    ((st.last_search_ts = none → (guard_search_rate (some st) cur now).1 = (true, "ok")) ∧
      ∀ t, st.last_search_ts = some t →
        (now - t < 900 →
          (guard_search_rate (some st) cur now).1 =
            (false, "search rate limit: " ++ toString (now - t) ++ "s since last, need ≥900s")) ∧
        (900 ≤ now - t → (guard_search_rate (some st) cur now).1 = (true, "ok"))) := by
  obtain ⟨hc, hs⟩ := read_state_preserves_ts st cur
  refine ⟨⟨?_, ?_⟩, ?_, ?_⟩
  · intro h
    norm_num [guard_counts_rate, hc, h, seconds_since, FIFTEEN_MIN]
  · intro t h
    constructor
    · intro he
      simp [guard_counts_rate, hc, h, seconds_since, FIFTEEN_MIN, he]
    · intro he
      simp [guard_counts_rate, hc, h, seconds_since, FIFTEEN_MIN, not_lt.mpr he]
  · intro h
    norm_num [guard_search_rate, hs, h, seconds_since, FIFTEEN_MIN]
  · intro t h
    constructor
    · intro he
      simp [guard_search_rate, hs, h, seconds_since, FIFTEEN_MIN, he]
    · intro he
      simp [guard_search_rate, hs, h, seconds_since, FIFTEEN_MIN, not_lt.mpr he]

/-- Witness for C5: 600 elapsed seconds deny the counts guard with the elapsed
time in the reason; a null search timestamp allows. -/
theorem C5_witness :
    (guard_counts_rate (some ⟨"2025-10", 0, some 400, none⟩) "2025-10" 1000).1 =
        (false, "counts rate limit: " ++ toString ((1000 : Int) - 400) ++ "s since last, need ≥900s") ∧
    (guard_search_rate (some ⟨"2025-10", 0, some 400, none⟩) "2025-10" 1000).1 = (true, "ok") :=
  ⟨(((C5_rate_guard_thresholds ⟨"2025-10", 0, some 400, none⟩ "2025-10" 1000).1).2 400 rfl).1
      (by decide),
    ((C5_rate_guard_thresholds ⟨"2025-10", 0, some 400, none⟩ "2025-10" 1000).2).1 rfl⟩

/-- C4: `cmd_fetch` clamps the requested size to `[10, 100]` before the
monthly-quota guard runs, and with the loaded state's `monthly_count` as
`used` the invocation is denied with exit code 3 — before any remote call and
with the state unchanged — exactly when `used + n > 100` for the clamped
size `n`; equality is allowed. -/
theorem C4_clamp_then_quota (queries : List (String × String)) (k : String)
    (mr : Int) (an : Bool) (st : QuotaState) (cur : String) (now : Int)
    (fetched salt : String) (hm : st.month = cur) :
    (st.monthly_count + max 10 (min mr 100) > 100 →
      ∀ remote, cmd_fetch queries ⟨k, mr, an⟩ remote (some st) cur now fetched salt
        = (.exit 3, some st)) ∧
    (st.monthly_count + max 10 (min mr 100) ≤ 100 →
      ∀ remote,
        (cmd_fetch queries ⟨k, mr, an⟩ remote (some st) cur now fetched salt).1
          ≠ .exit 3) := by
  have hrs := read_state_current st cur hm
  constructor
  · intro h remote
    rw [cmd_fetch_spec]
    simp [hrs, h]
  · intro h remote
    rw [cmd_fetch_spec]
    simp only [hrs]
    rw [if_neg (not_lt.mpr h)]
    by_cases hr : seconds_since st.last_search_ts now < 900
    · simp [hr]
    · cases read_query queries k with
      | error m => simp [hr]
      | ok q =>
        cases remote with
        | error e => simp [hr]
        | ok resp => simp [hr]

/-- Witness for C4: the spec scenario — `monthly_count = 95`, requested size 10
(clamped to 10), `95 + 10 > 100` — is denied with exit 3 and no state change,
whatever the remote would have answered. -/
theorem C4_witness :
    cmd_fetch [("k", "q")] ⟨"k", 10, false⟩ (.error "net")
        (some ⟨"2025-10", 95, none, none⟩) "2025-10" 0 "f" "s"
      = (.exit 3, some ⟨"2025-10", 95, none, none⟩) :=
  (C4_clamp_then_quota [("k", "q")] "k" 10 false ⟨"2025-10", 95, none, none⟩
      "2025-10" 0 "f" "s" rfl).1 (by decide) (.error "net")

/-- C1 counterexample: a counts invocation denied by the rate guard still
rewrites the persisted state, because the load inside the guard rolls the
stale month forward: `monthly_count` drops from 50 to 0 on a denied call. -/
theorem C1_counterexample :
    cmd_scout [("k", "q")] ⟨"k", "hour"⟩ (.error "boom")
        (some ⟨"2025-09", 50, some 999900, none⟩) "2025-10" 1000000
      = (.exit 2, some ⟨"2025-10", 0, some 999900, none⟩) ∧
    (some ⟨"2025-10", 0, some 999900, none⟩ : Disk)
      ≠ some ⟨"2025-09", 50, some 999900, none⟩ := by
  decide

/-- C1 (amended): whenever a fetch or counts invocation fails (guard denial,
configuration error, or remote failure — any result other than exit 0), the
persisted state is exactly what the initial load left on disk: `mark_*` and
`bump_monthly_count` never run, and only the month reconciliation performed
by `read_state` itself may have changed the file. -/
theorem C1_failure_preserves_state (queries : List (String × String)) (k : String)
    (mr : Int) (an : Bool) (g : String) (remoteF : Except String SearchResponse)
    (remoteC : Except String CountsResponse) (disk : Disk) (cur : String)
    (now : Int) (fetched salt : String) :
    ((cmd_fetch queries ⟨k, mr, an⟩ remoteF disk cur now fetched salt).1 ≠ .exit 0 →
      (cmd_fetch queries ⟨k, mr, an⟩ remoteF disk cur now fetched salt).2 =
        (read_state disk cur).2) ∧
    ((cmd_scout queries ⟨k, g⟩ remoteC disk cur now).1 ≠ .exit 0 →
      (cmd_scout queries ⟨k, g⟩ remoteC disk cur now).2 = (read_state disk cur).2) := by
  rw [read_state_writes_result]
  set st := (read_state disk cur).1 with hst
  constructor
  · intro h
    rw [cmd_fetch_spec] at h ⊢
    simp only [← hst] at h ⊢
    by_cases hq : st.monthly_count + max 10 (min mr 100) > 100
    · simp [hq]
    · by_cases hr : seconds_since st.last_search_ts now < 900
      · simp [hq, hr]
      · cases hquery : read_query queries k with
        | error m => simp [hq, hr, hquery]
        | ok q =>
          cases remoteF with
          | error e => simp [hq, hr, hquery]
          | ok resp =>
            exact absurd (by simp [hq, hr, hquery]) h
  · intro h
    rw [cmd_scout_spec] at h ⊢
    simp only [← hst] at h ⊢
    by_cases hr : seconds_since st.last_counts_ts now < 900
    · simp [hr]
    · cases hquery : read_query queries k with
      | error m => simp [hr, hquery]
      | ok q =>
        cases remoteC with
        | error e => simp [hr, hquery]
        | ok resp =>
          exact absurd (by simp [hr, hquery]) h

/-- Witness for C1: a quota-denied fetch and a rate-denied scout both leave the
disk exactly as the initial load wrote it. -/
theorem C1_witness :
    (cmd_fetch [("k", "q")] ⟨"k", 10, false⟩ (.error "net")
        (some ⟨"2025-10", 95, none, none⟩) "2025-10" 0 "f" "s").2 =
      (read_state (some ⟨"2025-10", 95, none, none⟩) "2025-10").2 ∧
    (cmd_scout [("k", "q")] ⟨"k", "hour"⟩ (.error "boom")
        (some ⟨"2025-10", 0, some 100, none⟩) "2025-10" 200).2 =
      (read_state (some ⟨"2025-10", 0, some 100, none⟩) "2025-10").2 :=
  ⟨(C1_failure_preserves_state [("k", "q")] "k" 10 false "hour" (.error "net")
      (.error "boom") (some ⟨"2025-10", 95, none, none⟩) "2025-10" 0 "f" "s").1 (by decide),
    (C1_failure_preserves_state [("k", "q")] "k" 10 false "hour" (.error "net")
      (.error "boom") (some ⟨"2025-10", 0, some 100, none⟩) "2025-10" 200 "f" "s").2 (by decide)⟩

/-- C2: a successful fetch increments `monthly_count` by the number of rows the
normalizer produced — one per post in the response's `data`, not the clamped
request size — and stamps `last_search_ts` with the current time. -/
theorem C2_bump_by_actual_rows (queries : List (String × String)) (k : String)
    (mr : Int) (an : Bool) (st : QuotaState) (cur : String) (now : Int)
    (fetched salt q : String) (resp : SearchResponse)
    (hm : st.month = cur)
    (hq : read_query queries k = .ok q)
    (hquota : st.monthly_count + max 10 (min mr 100) ≤ 100)
    (hrate : ¬ seconds_since st.last_search_ts now < 900) :
    cmd_fetch queries ⟨k, mr, an⟩ (.ok resp) (some st) cur now fetched salt
      = (.exit 0, some { st with
          last_search_ts := some now
          monthly_count := st.monthly_count +
            ((normalize_search_json resp k an salt fetched).length : Int) }) ∧
    (normalize_search_json resp k an salt fetched).length = resp.data.length := by
  have hlen : (normalize_search_json resp k an salt fetched).length = resp.data.length := by
    simp [normalize_search_json]
  refine ⟨?_, hlen⟩
  rw [cmd_fetch_spec]
  simp only [read_state_current st cur hm]
  rw [if_neg (not_lt.mpr hquota), if_neg hrate]
  simp [hq, hlen]

/-- Witness for C2: the spec scenario — `monthly_count = 50`,
`last_search_ts` 20 minutes old, request size 10, remote returns 8 posts —
ends with `monthly_count = 58` (not 60) and `last_search_ts = now`. -/
theorem C2_witness :
    cmd_fetch [("k", "hello")] ⟨"k", 10, false⟩ (.ok resp8)
        (some ⟨"2025-10", 50, none, some 998800⟩) "2025-10" 1000000 "f" "s"
      = (.exit 0, some ⟨"2025-10", 58, none, some 1000000⟩) := by
  have h := (C2_bump_by_actual_rows [("k", "hello")] "k" 10 false
      ⟨"2025-10", 50, none, some 998800⟩ "2025-10" 1000000 "f" "s" "hello" resp8
      rfl (by rfl) (by decide) (by decide)).1
  simpa [resp8, normalize_search_json] using h

/-- C6 counterexample: with a 513-character resolved query and an exhausted
quota, the invocation's outcome is the monthly-quota guard's denial (exit 3),
not the query-length rejection — the guards run before the query is even
read, so the over-long query is not "rejected before any guard runs". -/
theorem C6_counterexample :
    (collapse_ws longQ).length = 513 ∧
    cmd_fetch [("k", longQ)] ⟨"k", 10, false⟩ (.error "net")
        (some ⟨"2025-10", 100, none, none⟩) "2025-10" 0 "f" "s"
      = (.exit 3, some ⟨"2025-10", 100, none, none⟩) := by
  constructor
  · decide
  · decide

/-- C6 (amended): a query key resolving to a whitespace-collapsed string of
more than 512 characters aborts the fetch with `SystemExit` before any remote
call (the outcome is independent of what the remote would answer) and without
mutating the persisted state — but only after the two guards have run and
allowed the invocation. -/
theorem C6_query_too_long_rejected (queries : List (String × String)) (k raw : String)
    (mr : Int) (an : Bool) (st : QuotaState) (cur : String) (now : Int)
    (fetched salt : String)
    (hm : st.month = cur)
    (hlk : queries.lookup k = some raw)
    (hlen : (collapse_ws raw).length > 512)
    (hquota : st.monthly_count + max 10 (min mr 100) ≤ 100)
    (hrate : ¬ seconds_since st.last_search_ts now < 900) :
    ∀ remote, cmd_fetch queries ⟨k, mr, an⟩ remote (some st) cur now fetched salt
      = (.sysExit ("query too long (" ++ toString (collapse_ws raw).length ++
          " chars). Free plan allows ≤512."), some st) := by
  intro remote
  have hq : read_query queries k =
      .error ("query too long (" ++ toString (collapse_ws raw).length ++
        " chars). Free plan allows ≤512.") := by
    simp [read_query, hlk, hlen]
  rw [cmd_fetch_spec]
  simp only [read_state_current st cur hm]
  rw [if_neg (not_lt.mpr hquota), if_neg hrate]
  simp [hq]

/-- Witness for C6: the 513-character query aborts a fetch whose guards both
allow, leaving the state untouched. -/
theorem C6_witness :
    cmd_fetch [("k", longQ)] ⟨"k", 10, false⟩ (.error "net")
        (some ⟨"2025-10", 0, none, none⟩) "2025-10" 0 "f" "s"
      = (.sysExit ("query too long (" ++ toString (collapse_ws longQ).length ++
          " chars). Free plan allows ≤512."), some ⟨"2025-10", 0, none, none⟩) :=
  C6_query_too_long_rejected [("k", longQ)] "k" longQ 10 false
    ⟨"2025-10", 0, none, none⟩ "2025-10" 0 "f" "s" rfl rfl (by decide)
    (by decide) (by decide) (.error "net")

theorem usersIndex_eq_none (us : List XUser) (aid : String)
    (h : ∀ u ∈ us, u.id ≠ aid) : usersIndex us aid = none := by
  induction us with
  | nil => rfl
  | cons u rest ih =>
    have hu : u.id ≠ aid := h u (by simp)
    have hstep : usersIndex (u :: rest) aid = usersIndex rest aid := by
      simp [usersIndex, hu]
    rw [hstep]
    exact ih (fun v hv => h v (by simp [hv]))

/-- C7 counterexample: with an empty author index, the first row keeps the
post's non-null `author_id` (`some "u1"`), so not *all* author fields are
null; and the second row has a non-null post id (`some ""`) yet a null
permalink. -/
theorem C7_counterexample :
    (normalize_search_json respC7 "k" false "s" "f").map Row.author_id
        = [some "u1", none] ∧
    (normalize_search_json respC7 "k" false "s" "f").map Row.tweet_id
        = [some "t1", some ""] ∧
    (normalize_search_json respC7 "k" false "s" "f").map Row.tweet_url
        = [some "https://x.com/i/web/status/t1", none] := by
  decide

/-- C7 (amended): for a post whose `author_id` has no entry in the author
index, the author fields derived from the lookup (username, display name,
followers) are null, while `author_id` itself is carried over from the post
unchanged; and for a non-empty post id the permalink is the id-only form. -/
theorem C7_missing_author_fields (resp : SearchResponse) (k salt fetched : String)
    (t : Tweet) (ht : t ∈ resp.data)
    (habs : ∀ u ∈ resp.users, some u.id ≠ t.author_id) :
    normalizeTweet resp.users k false salt fetched t ∈
        normalize_search_json resp k false salt fetched ∧
    (normalizeTweet resp.users k false salt fetched t).author_username = none ∧
    (normalizeTweet resp.users k false salt fetched t).author_display_name = none ∧
    (normalizeTweet resp.users k false salt fetched t).author_followers = none ∧
    (normalizeTweet resp.users k false salt fetched t).author_id = t.author_id ∧
    ∀ s, t.id = some s → s ≠ "" →
      (normalizeTweet resp.users k false salt fetched t).tweet_url =
        some ("https://x.com/i/web/status/" ++ s) := by
  have huser : (match t.author_id with
      | none => (none : Option XUser)
      | some a => usersIndex resp.users a) = none := by
    cases h : t.author_id with
    | none => rfl
    | some a =>
      exact usersIndex_eq_none _ _ (fun u hu he => habs u hu (by rw [he, ← h]))
  refine ⟨List.mem_map_of_mem _ ht, ?_, ?_, ?_, ?_, ?_⟩
  · simp [normalizeTweet, huser]
  · simp [normalizeTweet, huser]
  · simp [normalizeTweet, huser]
  · simp [normalizeTweet, huser]
  · intro s hs hne
    simp [normalizeTweet, huser, hs, truthy, hne, pyOrEmpty]

/-- Witness for C7: a post by `u1` normalized against an index holding only
author `w` gets null username/display-name/followers, keeps `author_id = u1`,
and an id-only permalink. -/
theorem C7_witness :
    (normalizeTweet [userW] "k" false "s" "f" tweetA).author_username = none ∧
    (normalizeTweet [userW] "k" false "s" "f" tweetA).author_display_name = none ∧
    (normalizeTweet [userW] "k" false "s" "f" tweetA).author_followers = none ∧
    (normalizeTweet [userW] "k" false "s" "f" tweetA).author_id = some "u1" ∧
    (normalizeTweet [userW] "k" false "s" "f" tweetA).tweet_url =
      some "https://x.com/i/web/status/t1" := by
  have h := C7_missing_author_fields ⟨[tweetA], [userW]⟩ "k" "s" "f" tweetA
    (by decide) (by decide)
  refine ⟨h.2.1, h.2.2.1, h.2.2.2.1, ?_, ?_⟩
  · rw [h.2.2.2.2.1]; decide
  · rw [h.2.2.2.2.2 "t1" (by decide) (by decide)]; decide

/-- C8: with anonymization enabled, every normalized row carries
`sha_id(raw_author_id, salt)` — the hex-encoded SHA-256 of the raw author id
concatenated with the salt, a pure function of those two strings — as its
author id, has null username and display name, and a permalink that is at
most the id-only form (id-only when the post id is non-empty, null
otherwise). -/
theorem C8_anonymize_row (resp : SearchResponse) (k salt fetched : String)
    (t : Tweet) (ht : t ∈ resp.data) :
    normalizeTweet resp.users k true salt fetched t ∈
        normalize_search_json resp k true salt fetched ∧
    (normalizeTweet resp.users k true salt fetched t).author_id =
      some (sha_id (pyOrEmpty t.author_id) salt) ∧
    sha_id (pyOrEmpty t.author_id) salt =
      sha256hex (strBytes (pyOrEmpty t.author_id ++ salt)) ∧
    (normalizeTweet resp.users k true salt fetched t).author_username = none ∧
    (normalizeTweet resp.users k true salt fetched t).author_display_name = none ∧
    (normalizeTweet resp.users k true salt fetched t).tweet_url =
      (if truthy t.id then some ("https://x.com/i/web/status/" ++ pyOrEmpty t.id)
        else none) := by
  refine ⟨List.mem_map_of_mem _ ht, ?_, rfl, ?_, ?_, ?_⟩
  · simp [normalizeTweet]
  · simp [normalizeTweet]
  · simp [normalizeTweet]
  · by_cases hid : truthy t.id
    · simp [normalizeTweet, hid]
    · simp [normalizeTweet, hid]

/-- Witness for C8 at a concrete post and salt, with the digest evaluated:
SHA-256 of `"u1" ++ "s"`. -/
theorem C8_witness :
    (normalizeTweet [] "k" true "s" "f" tweetA).author_id = some (sha_id "u1" "s") ∧
    (normalizeTweet [] "k" true "s" "f" tweetA).author_username = none ∧
    (normalizeTweet [] "k" true "s" "f" tweetA).author_display_name = none ∧
    (normalizeTweet [] "k" true "s" "f" tweetA).tweet_url =
      some "https://x.com/i/web/status/t1" ∧
    sha_id "u1" "s" = "24b04e39f135ae411dbbbfb4838ee7c94c7aaa4a80b4989372237c6bb47f63dd" := by
  have h := C8_anonymize_row ⟨[tweetA], []⟩ "k" "s" "f" tweetA (by decide)
  refine ⟨h.2.1, h.2.2.2.1, h.2.2.2.2.1, ?_, ?_⟩
  · rw [h.2.2.2.2.2]; decide
  · decide

/-- C9: every normalized row satisfies `engagement_total = likes + retweets +
replies + quotes`, counters absent from the raw post's `public_metrics`
counting as 0. -/
theorem C9_engagement_total_sum (resp : SearchResponse) (k : String) (an : Bool)
    (salt fetched : String) :
    ∀ row ∈ normalize_search_json resp k an salt fetched,
      row.engagement_total =
        row.engagement_likes + row.engagement_retweets + row.engagement_replies +
          row.engagement_quotes := by
  intro row hrow
  simp only [normalize_search_json, List.mem_map] at hrow
  obtain ⟨t, ht, rfl⟩ := hrow
  cases an <;> simp [normalizeTweet] <;> ring

/-- Witness for C9 on a post with only `reply_count = 3` and `like_count = 2`
present: total 5 = 2 + 0 + 3 + 0. -/
theorem C9_witness :
    (normalizeTweet [] "k" false "s" "f" tweetMetrics).engagement_total =
      (normalizeTweet [] "k" false "s" "f" tweetMetrics).engagement_likes +
        (normalizeTweet [] "k" false "s" "f" tweetMetrics).engagement_retweets +
        (normalizeTweet [] "k" false "s" "f" tweetMetrics).engagement_replies +
        (normalizeTweet [] "k" false "s" "f" tweetMetrics).engagement_quotes :=
  C9_engagement_total_sum ⟨[tweetMetrics], []⟩ "k" false "s" "f"
    (normalizeTweet [] "k" false "s" "f" tweetMetrics) (by decide)

theorem strLeb_total (x y : List Char) : (strLeb x y || strLeb y x) = true := by
  induction x generalizing y with
  | nil => cases y <;> simp [strLeb]
  | cons a as ih =>
    cases y with
    | nil => simp [strLeb]
    | cons b bs =>
      by_cases h1 : a.toNat < b.toNat
      · simp [strLeb, h1]
      · by_cases h2 : b.toNat < a.toNat
        · simp [strLeb, h1, h2]
        · simp [strLeb, h1, h2, ih bs]

theorem strLeb_trans (x : List Char) : ∀ y z, strLeb x y = true → strLeb y z = true →
    strLeb x z = true := by
  induction x with
  | nil =>
    intro y z h1 h2
    simp [strLeb]
  | cons a as ih =>
    intro y z h1 h2
    cases y with
    | nil => simp [strLeb] at h1
    | cons b bs =>
      cases z with
      | nil => simp [strLeb] at h2
      | cons c cs =>
        by_cases hab : a.toNat < b.toNat <;> by_cases hba : b.toNat < a.toNat <;>
          by_cases hbc : b.toNat < c.toNat <;> by_cases hcb : c.toNat < b.toNat <;>
          simp [strLeb, hab, hba, hbc, hcb] at h1 h2 ⊢ <;>
          first
            | omega
            | exact Or.inl (by omega)
            | exact Or.inr ⟨by omega, ih bs cs h1 h2⟩

theorem dateLe_trans (a b c : Option String)
    (h1 : dateLe a b = true) (h2 : dateLe b c = true) : dateLe a c = true := by
  cases a <;> cases b <;> cases c <;> simp [dateLe] at h1 h2 ⊢
  exact strLeb_trans _ _ _ h2 h1

theorem dateLe_total (a b : Option String) : (dateLe a b || dateLe b a) = true := by
  cases a <;> cases b <;> simp [dateLe]
  rcases Bool.or_eq_true_iff.mp (strLeb_total _ _) with h | h
  · exact Or.inr h
  · exact Or.inl h

/-- The rows `write_clean_csv` emits are always a permutation of its input. -/
theorem write_clean_csv_perm (rows : List CsvRow) :
    (write_clean_csv rows).1.Perm rows := by
  by_cases h1 : rows.isEmpty
  · simp [write_clean_csv, h1]
  · by_cases h2 : (dfColumns rows).contains "posted_at_utc"
    · have hmem : "posted_at_utc" ∈ dfColumns rows := List.elem_iff.mp h2
      simp [write_clean_csv, h1, hmem, List.mergeSort_perm]
    · have hmem : "posted_at_utc" ∉ dfColumns rows := fun hm => h2 (List.elem_iff.mpr hm)
      simp [write_clean_csv, h1, hmem]

/-- On a non-empty input with a `posted_at_utc` column, the emitted rows are
sorted: timestamps descending, missing timestamps last. -/
theorem write_clean_csv_sorted (rows : List CsvRow) (hne : rows ≠ [])
    (hcol : (dfColumns rows).contains "posted_at_utc" = true) :
    (write_clean_csv rows).1.Pairwise
      (fun r1 r2 => dateLe (rowCell r1 "posted_at_utc") (rowCell r2 "posted_at_utc") = true) := by
  have h1 : rows.isEmpty = false := List.isEmpty_eq_false.mpr hne
  have hmem : "posted_at_utc" ∈ dfColumns rows := List.elem_iff.mp hcol
  simp only [write_clean_csv, h1, Bool.false_eq_true, if_false, hcol, if_true]
  have hsor := @List.sorted_mergeSort CsvRow
    (fun r1 r2 => dateLe (rowCell r1 "posted_at_utc") (rowCell r2 "posted_at_utc"))
    (fun r1 r2 r3 h1 h2 => dateLe_trans _ _ _ h1 h2)
    (fun r1 r2 => dateLe_total _ _)
    rows
  simpa [hmem] using hsor

/-- C10: on every non-empty row list carrying a `posted_at_utc` column, the
clean-CSV writer reorders the rows into a permutation of the input sorted by
descending `posted_at_utc` with missing timestamps last (so input order is
not preserved in general — witnessed concretely by `csvEx`), and emits a
column list that starts with the preferred columns that occur in the data, in
the fixed preferred order, followed by exactly the non-preferred columns. -/
theorem C10_writer_sorts_and_orders_columns (rows : List CsvRow)
    (hne : rows ≠ []) (hcol : (dfColumns rows).contains "posted_at_utc" = true) :
    ((write_clean_csv rows).1.Perm rows ∧
      (write_clean_csv rows).1.Pairwise
        (fun r1 r2 =>
          dateLe (rowCell r1 "posted_at_utc") (rowCell r2 "posted_at_utc") = true)) ∧
    (∃ pre post, (write_clean_csv rows).2 = pre ++ post ∧
      pre.Sublist preferred_order ∧
      post.Sublist (dfColumns rows) ∧
      (∀ c ∈ pre, c ∈ dfColumns rows) ∧
      (∀ c ∈ post, c ∉ preferred_order) ∧
      (∀ c ∈ preferred_order, c ∈ dfColumns rows → c ∈ pre) ∧
      (∀ c ∈ dfColumns rows, c ∈ pre ++ post)) ∧
    (write_clean_csv csvEx).1 ≠ csvEx := by
  refine ⟨⟨write_clean_csv_perm rows, write_clean_csv_sorted rows hne hcol⟩, ?_, ?_⟩
  · refine ⟨preferred_order.filter (fun c => (dfColumns rows).contains c),
      (dfColumns rows).filter
        (fun c => ¬ (preferred_order.filter
          (fun c2 => (dfColumns rows).contains c2)).contains c),
      rfl, List.filter_sublist _, List.filter_sublist _, ?_, ?_, ?_, ?_⟩
    · intro c hc
      have := (List.mem_filter.mp hc).2
      exact List.elem_iff.mp this
    · intro c hc hpref
      have h2 := (List.mem_filter.mp hc).2
      simp only [decide_eq_true_eq] at h2
      exact h2 (List.elem_iff.mpr (List.mem_filter.mpr
        ⟨hpref, List.elem_iff.mpr (List.mem_filter.mp hc).1⟩))
    · intro c hcp hcc
      exact List.mem_filter.mpr ⟨hcp, List.elem_iff.mpr hcc⟩
    · intro c hc
      by_cases hpref : c ∈ preferred_order
      · exact List.mem_append.mpr (Or.inl (List.mem_filter.mpr ⟨hpref, List.elem_iff.mpr hc⟩))
      · refine List.mem_append.mpr (Or.inr (List.mem_filter.mpr ⟨hc, ?_⟩))
        simp only [decide_eq_true_eq]
        intro hcont
        exact hpref (List.mem_filter.mp (List.elem_iff.mp hcont)).1
  · intro heq
    have hs := write_clean_csv_sorted csvEx (by decide) (by decide)
    rw [heq] at hs
    exact (by decide : ¬ csvEx.Pairwise
      (fun r1 r2 =>
        dateLe (rowCell r1 "posted_at_utc") (rowCell r2 "posted_at_utc") = true)) hs

/-- Witness for C10 at the concrete three-row fixture (one missing timestamp,
two out-of-order timestamps, one extra column). -/
theorem C10_witness :
    ((write_clean_csv csvEx).1.Perm csvEx ∧
      (write_clean_csv csvEx).1.Pairwise
        (fun r1 r2 =>
          dateLe (rowCell r1 "posted_at_utc") (rowCell r2 "posted_at_utc") = true)) ∧
    (∃ pre post, (write_clean_csv csvEx).2 = pre ++ post ∧
      pre.Sublist preferred_order ∧
      post.Sublist (dfColumns csvEx) ∧
      (∀ c ∈ pre, c ∈ dfColumns csvEx) ∧
      (∀ c ∈ post, c ∉ preferred_order) ∧
      (∀ c ∈ preferred_order, c ∈ dfColumns csvEx → c ∈ pre) ∧
      (∀ c ∈ dfColumns csvEx, c ∈ pre ++ post)) ∧
    (write_clean_csv csvEx).1 ≠ csvEx :=
  C10_writer_sorts_and_orders_columns csvEx (by decide) (by decide)

end XFreeScraper
